import Mathlib

/-!
Shallow embedding of the slsk-batchdl GUI backend (`main.py`) and proofs of
the spec's claims about it.

The embedding follows the Python source of `build_command`, the `/run`
streaming generator `stream_output`, the filename parser `parse_slsk_json`
(at the level of one entry's `Filename` processing), the ranking block of
`search_command`, and `fetch_metadata`.  Python strings become `String`,
`None`-able strings become `Option String`, Python truthiness of strings is
made explicit, the process exit code is an `Int`, and the two external
metadata services as well as the stdlib `SequenceMatcher.ratio` are
abstracted as function parameters.
-/

namespace SlskGui

/-- Python truthiness of a string: a string is truthy iff it is nonempty. -/
def strTruthy (s : String) : Bool := s != ""

/-- Python truthiness of an `Optional[str]`: `None` is falsy, a string is
truthy iff it is nonempty. -/
def optTruthy : Option String → Bool
  | none => false
  | some s => strTruthy s

/-- Environment-derived values read by `build_command`:
`os.getenv("SLSK_PATH", "/downloads")` (always a string, with that default),
`os.getenv("SLSK_USER")` and `os.getenv("SLSK_PASS")` (either can be unset). -/
structure Env where
  slsk_path : String
  slsk_user : Option String
  slsk_pass : Option String

/-- The keyword arguments of `build_command` in `main.py`, with the same
defaults as the Python signature. -/
structure BuildOptions where
  input_text : String := ""
  input_file_path : Option String := none
  spotify_playlist_url : Option String := none
  desperate : Bool := false
  fast_search : Bool := false
  remove_ft : Bool := false
  artist_maybe_wrong : Bool := false
  album : Bool := false
  interactive : Bool := false
  use_database : Bool := false

/-- Translation of `build_command` (main.py lines 172-238).  `exe` stands for
`str(BASE_DIR / "sldl")`.  Each `let` mirrors one append/extend on the
Python `command` list, in source order. -/
def build_command (exe : String) (env : Env) (o : BuildOptions) : List String :=
  let command := [exe]
  let command :=
    if optTruthy o.spotify_playlist_url then command ++ [o.spotify_playlist_url.getD ""]
    else if optTruthy o.input_file_path then command ++ [o.input_file_path.getD ""]
    else if strTruthy o.input_text then command ++ [o.input_text]
    else command
  let command := command ++ ["--path", env.slsk_path]
  let command := if optTruthy env.slsk_user then command ++ ["--user", env.slsk_user.getD ""] else command
  let command := if optTruthy env.slsk_pass then command ++ ["--pass", env.slsk_pass.getD ""] else command
  let command := command ++ ["--pref-format", "flac"]
  let command := command ++ ["--no-progress"]
  let command := if o.desperate then command ++ ["--desperate"] else command
  let command := if o.fast_search then command ++ ["--fast-search"] else command
  let command := if o.remove_ft then command ++ ["--remove-ft"] else command
  let command := if o.artist_maybe_wrong then command ++ ["--artist-maybe-wrong"] else command
  let command := if o.album then command ++ ["--album"] else command
  let command := if o.interactive then command ++ ["--interactive"] else command
  let command :=
    if o.use_database then command ++ ["--index-path", "slsk_downloads.index", "--skip-existing"]
    else command
  command

/-- Spec-side statement of the positional-argument precedence: playlist URL
wins, else uploaded-file path, else nonempty free text, else nothing. -/
def positional_arg (o : BuildOptions) : Option String :=
  if optTruthy o.spotify_playlist_url then some (o.spotify_playlist_url.getD "")
  else if optTruthy o.input_file_path then some (o.input_file_path.getD "")
  else if strTruthy o.input_text then some o.input_text
  else none

/-- Credential flags contributed by the environment: `--user u` when the user
variable is truthy, then `--pass p` when the password variable is truthy. -/
def cred_flags (env : Env) : List String :=
  (if optTruthy env.slsk_user then ["--user", env.slsk_user.getD ""] else [])
  ++ (if optTruthy env.slsk_pass then ["--pass", env.slsk_pass.getD ""] else [])

/-- Boolean toggle flags, in the declaration order of the Python source. -/
def toggle_flags (o : BuildOptions) : List String :=
  (if o.desperate then ["--desperate"] else [])
  ++ (if o.fast_search then ["--fast-search"] else [])
  ++ (if o.remove_ft then ["--remove-ft"] else [])
  ++ (if o.artist_maybe_wrong then ["--artist-maybe-wrong"] else [])
  ++ (if o.album then ["--album"] else [])
  ++ (if o.interactive then ["--interactive"] else [])

/-- The two database flags, present exactly when the toggle is set. -/
def db_flags (o : BuildOptions) : List String :=
  if o.use_database then ["--index-path", "slsk_downloads.index", "--skip-existing"] else []

/-- Everything `build_command` appends after the positional argument. -/
def command_flags (env : Env) (o : BuildOptions) : List String :=
  ["--path", env.slsk_path] ++ cred_flags env ++ ["--pref-format", "flac", "--no-progress"]
  ++ toggle_flags o ++ db_flags o

lemma ite_app (c : Prop) [Decidable c] (a x y : List String) :
    (if c then a ++ x else a ++ y) = a ++ (if c then x else y) := by
  split <;> rfl

lemma ite_app' (c : Prop) [Decidable c] (a x : List String) :
    (if c then a ++ x else a) = a ++ (if c then x else []) := by
  split <;> simp

/-- Structural decomposition of `build_command`: executable, then the
positional argument (if any), then the flags. -/
lemma build_command_eq (exe : String) (env : Env) (o : BuildOptions) :
    build_command exe env o = [exe] ++ (positional_arg o).toList ++ command_flags env o := by
  simp only [build_command, command_flags, cred_flags, toggle_flags, db_flags, positional_arg,
    ite_app, ite_app', apply_ite Option.toList, Option.toList_some, Option.toList_none,
    List.append_assoc, List.append_nil, List.nil_append]
  rfl

lemma positional_arg_elem {o : BuildOptions} {x : String} (hx : x ∈ (positional_arg o).toList) :
    x = o.spotify_playlist_url.getD "" ∨ x = o.input_file_path.getD "" ∨ x = o.input_text := by
  unfold positional_arg at hx
  by_cases h1 : optTruthy o.spotify_playlist_url <;> by_cases h2 : optTruthy o.input_file_path <;>
    by_cases h3 : strTruthy o.input_text <;> simp [h1, h2, h3] at hx <;> simp [hx]

lemma cred_flags_elem {env : Env} {x : String} (hx : x ∈ cred_flags env) :
    x = "--user" ∨ x = env.slsk_user.getD "" ∨ x = "--pass" ∨ x = env.slsk_pass.getD "" := by
  unfold cred_flags at hx
  by_cases h1 : optTruthy env.slsk_user <;> by_cases h2 : optTruthy env.slsk_pass <;>
    simp [h1, h2] at hx <;> tauto

lemma mem_ite_single {c : Prop} [Decidable c] {x a : String}
    (h : x ∈ (if c then [a] else [])) : x = a := by
  split at h
  · simpa using h
  · simp at h

lemma toggle_flags_elem {o : BuildOptions} {x : String} (hx : x ∈ toggle_flags o) :
    x ∈ (["--desperate", "--fast-search", "--remove-ft", "--artist-maybe-wrong", "--album",
          "--interactive"] : List String) := by
  unfold toggle_flags at hx
  simp only [List.append_assoc, List.mem_append] at hx
  rcases hx with h | h | h | h | h | h <;> simp [mem_ite_single h]

lemma not_mem_build_command (exe : String) (env : Env) (o : BuildOptions) (f : String)
    (hdb : o.use_database = false)
    (hexe : exe ≠ f) (hpath : env.slsk_path ≠ f)
    (huser : env.slsk_user.getD "" ≠ f) (hpass : env.slsk_pass.getD "" ≠ f)
    (htext : o.input_text ≠ f) (hfile : o.input_file_path.getD "" ≠ f)
    (hurl : o.spotify_playlist_url.getD "" ≠ f)
    (hfixed : f ∉ (["--path", "--user", "--pass", "--pref-format", "flac", "--no-progress",
        "--desperate", "--fast-search", "--remove-ft", "--artist-maybe-wrong", "--album",
        "--interactive"] : List String)) :
    f ∉ build_command exe env o := by
  intro hmem
  rw [build_command_eq] at hmem
  rcases List.mem_append.mp hmem with h | h
  · rcases List.mem_append.mp h with h1 | h1
    · simp at h1; exact hexe h1.symm
    · rcases positional_arg_elem h1 with h2 | h2 | h2
      · exact hurl h2.symm
      · exact hfile h2.symm
      · exact htext h2.symm
  · unfold command_flags at h
    rcases List.mem_append.mp h with h1 | h1
    · rcases List.mem_append.mp h1 with h2 | h2
      · rcases List.mem_append.mp h2 with h3 | h3
        · rcases List.mem_append.mp h3 with h4 | h4
          · simp at h4
            rcases h4 with h5 | h5
            · exact hfixed (by simp [h5])
            · exact hpath h5.symm
          · rcases cred_flags_elem h4 with h5 | h5 | h5 | h5
            · exact hfixed (by simp [h5])
            · exact huser h5.symm
            · exact hfixed (by simp [h5])
            · exact hpass h5.symm
        · exact hfixed (by simp at h3 ⊢; tauto)
      · have h5 := toggle_flags_elem h2
        exact hfixed (by simp at h5 ⊢; tauto)
    · simp [db_flags, hdb] at h1

/-- Collision-freedom side condition for the database-flag claim: none of the
caller-controlled strings that `build_command` copies verbatim into the
command happens to equal one of the two database flag strings. -/
def db_collision_free (exe : String) (env : Env) (o : BuildOptions) : Prop :=
  exe ≠ "--index-path" ∧ exe ≠ "--skip-existing"
  ∧ env.slsk_path ≠ "--index-path" ∧ env.slsk_path ≠ "--skip-existing"
  ∧ env.slsk_user.getD "" ≠ "--index-path" ∧ env.slsk_user.getD "" ≠ "--skip-existing"
  ∧ env.slsk_pass.getD "" ≠ "--index-path" ∧ env.slsk_pass.getD "" ≠ "--skip-existing"
  ∧ o.input_text ≠ "--index-path" ∧ o.input_text ≠ "--skip-existing"
  ∧ o.input_file_path.getD "" ≠ "--index-path" ∧ o.input_file_path.getD "" ≠ "--skip-existing"
  ∧ o.spotify_playlist_url.getD "" ≠ "--index-path" ∧ o.spotify_playlist_url.getD "" ≠ "--skip-existing"

/-- C1: for every combination of inputs, the command built by `build_command`
is the executable path, then the single positional argument chosen by the
precedence playlist URL > uploaded-file path > nonempty free text > none,
then the flags; so the positional argument (when present) sits immediately
after the executable and before any flag. -/
theorem build_command_positional_precedence (exe : String) (env : Env) (o : BuildOptions) :
    build_command exe env o = [exe] ++ (positional_arg o).toList ++ command_flags env o :=
  build_command_eq exe env o

/-- C9: every command built by `build_command` contains `--path` immediately
followed by the destination value, `--pref-format` immediately followed by
`flac`, and `--no-progress`, whatever the inputs and toggles are. -/
theorem build_command_always_flags (exe : String) (env : Env) (o : BuildOptions) :
    (∃ s t, build_command exe env o = s ++ ["--path", env.slsk_path] ++ t)
    ∧ (∃ s t, build_command exe env o = s ++ ["--pref-format", "flac"] ++ t)
    ∧ "--no-progress" ∈ build_command exe env o := by
  refine ⟨⟨[exe] ++ (positional_arg o).toList,
      cred_flags env ++ ["--pref-format", "flac", "--no-progress"] ++ toggle_flags o ++ db_flags o,
      ?_⟩,
    ⟨[exe] ++ (positional_arg o).toList ++ ["--path", env.slsk_path] ++ cred_flags env,
      ["--no-progress"] ++ toggle_flags o ++ db_flags o, ?_⟩, ?_⟩
  · rw [build_command_eq]; simp [command_flags]
  · rw [build_command_eq]; simp [command_flags]
  · rw [build_command_eq]; simp [command_flags]

/-- C3 (counterexample): with no input fields set and no credential
environment variables, the built command is not the one-element list holding
only the executable path; `build_command` always appends the default flags. -/
theorem build_command_no_input_cex :
    build_command "sldl" ⟨"/downloads", none, none⟩ {} ≠ ["sldl"] := by decide

/-- C3 (amended): with no input fields set and no credential environment
variables, the built command is exactly the executable path followed by the
always-appended flags `--path <destination>`, `--pref-format flac` and
`--no-progress`, with no positional argument and no toggle flags. -/
theorem build_command_no_input_amended (exe dest : String) :
    build_command exe ⟨dest, none, none⟩ {}
      = [exe, "--path", dest, "--pref-format", "flac", "--no-progress"] := rfl

/-- C4: the pair `--index-path slsk_downloads.index --skip-existing` is
appended, consecutively and at the end of the command, exactly when the
`use_database` toggle is set; when the toggle is off neither flag occurs
anywhere in the command (given that no caller-supplied string collides with
the two flag strings). -/
theorem build_command_db_pair (exe : String) (env : Env) (o : BuildOptions)
    (h : db_collision_free exe env o) :
    (o.use_database = true →
      ∃ s, build_command exe env o
          = s ++ ["--index-path", "slsk_downloads.index", "--skip-existing"]
        ∧ "--index-path" ∉ s ∧ "--skip-existing" ∉ s)
    ∧ (o.use_database = false →
      "--index-path" ∉ build_command exe env o
      ∧ "--skip-existing" ∉ build_command exe env o) := by
  obtain ⟨h1, h2, h3, h4, h5, h6, h7, h8, h9, h10, h11, h12, h13, h14⟩ := h
  constructor
  · intro hdb
    refine ⟨build_command exe env { o with use_database := false }, ?_, ?_, ?_⟩
    · rw [build_command_eq, build_command_eq]
      simp [command_flags, db_flags, positional_arg, cred_flags, toggle_flags, hdb,
        List.append_assoc]
    · exact not_mem_build_command exe env _ _ rfl h1 h3 h5 h7 h9 h11 h13 (by decide)
    · exact not_mem_build_command exe env _ _ rfl h2 h4 h6 h8 h10 h12 h14 (by decide)
  · intro hdb
    exact ⟨not_mem_build_command exe env o _ hdb h1 h3 h5 h7 h9 h11 h13 (by decide),
      not_mem_build_command exe env o _ hdb h2 h4 h6 h8 h10 h12 h14 (by decide)⟩

/-- Witness for C4 at a concrete input with the database toggle set. -/
theorem build_command_db_pair_witness :
    ((({ use_database := true } : BuildOptions).use_database = true →
      ∃ s, build_command "sldl" ⟨"/downloads", none, none⟩ { use_database := true }
          = s ++ ["--index-path", "slsk_downloads.index", "--skip-existing"]
        ∧ "--index-path" ∉ s ∧ "--skip-existing" ∉ s)
    ∧ (({ use_database := true } : BuildOptions).use_database = false →
      "--index-path" ∉ build_command "sldl" ⟨"/downloads", none, none⟩ { use_database := true }
      ∧ "--skip-existing" ∉ build_command "sldl" ⟨"/downloads", none, none⟩ { use_database := true })) :=
  build_command_db_pair "sldl" ⟨"/downloads", none, none⟩ { use_database := true }
    (by unfold db_collision_free; decide)

/-- One server-sent event of the `/run` stream: a colored output line, the
`DONE` terminal event, or the `CRASH` terminal event carrying the exit code. -/
inductive SEvent where
  | line (text : String) (color : String)
  | done
  | crash (code : Int)
deriving DecidableEq

/-- Character-list test: does `l` start with `p`? -/
def charsStartWith : List Char → List Char → Bool
  | [], _ => true
  | _ :: _, [] => false
  | p :: ps, c :: cs => p == c && charsStartWith ps cs

/-- Character-list substring test, used to model the Python `in` operator. -/
def charsContain (pat : List Char) : List Char → Bool
  | [] => charsStartWith pat []
  | c :: cs => charsStartWith pat (c :: cs) || charsContain pat cs

/-- Model of the Python substring operator: `pat in s`. -/
def strContainsSub (s pat : String) : Bool := charsContain pat.data s.data

/-- Model of Python `str.lower()` for the ASCII strings handled here. -/
def lowerStr (s : String) : String := String.mk (s.data.map Char.toLower)

/-- The keyword list of `stream_output` (main.py line 413). -/
def color_keywords : List String := ["no results", "not found", "failed", "no suitable file"]

/-- Color classification of one standard-output line (main.py lines 412-414):
red when the lowercased line contains any keyword, else default. -/
def line_color (text : String) : String :=
  if color_keywords.any (fun k => strContainsSub (lowerStr text) k) then "red" else "default"

/-- Terminal-event selection from the awaited exit code (main.py lines
427-437): `return_code in [0, 1]` yields `DONE`, anything else `CRASH`. -/
def terminal_event (code : Int) : SEvent :=
  if code = 0 ∨ code = 1 then SEvent.done else SEvent.crash code

/-- Abstraction of one finished subprocess: its combined pipe output in true
emission order, each line tagged with the channel it was written to, and its
exit code.  The reader drains the stdout pipe to end-of-stream before it
touches stderr, so only the per-channel projections below matter to it. -/
structure RawProc where
  output : List (Bool × String)
  exit_code : Int

/-- The lines the stdout pipe delivers, in order (channel tag `false`). -/
def stdout_lines (p : RawProc) : List String := (p.output.filter (fun e => !e.1)).map (fun e => e.2)

/-- The lines the stderr pipe delivers, in order (channel tag `true`). -/
def stderr_lines (p : RawProc) : List String := (p.output.filter (fun e => e.1)).map (fun e => e.2)

/-- The first `while` loop of `stream_output`: relay stdout lines one by one,
classifying each with `line_color`. -/
def relay_out : List String → List SEvent
  | [] => []
  | l :: rest => SEvent.line l (line_color l) :: relay_out rest

/-- The second `while` loop of `stream_output`: relay stderr lines one by
one, always red. -/
def relay_err : List String → List SEvent
  | [] => []
  | l :: rest => SEvent.line l "red" :: relay_err rest

/-- Translation of the `stream_output` generator (main.py lines 393-437):
drain stdout, then drain stderr, then emit the single terminal event chosen
from the exit code. -/
def stream_output (p : RawProc) : List SEvent :=
  relay_out (stdout_lines p) ++ relay_err (stderr_lines p) ++ [terminal_event p.exit_code]

/-- The error text synthesized by `run_command` when no input is given. -/
def no_input_error_text : String :=
  "Error: No input provided. Please enter search terms, a URL, or upload a file.\n"

/-- Translation of the input check of `run_command` (main.py lines 360-364):
given the form fields (free text, the uploaded file's filename if a file is
present, the playlist URL) and the behavior `p` the subprocess would have,
return whether a subprocess is spawned and the emitted event stream. -/
def run_command_events (input_text : String) (upload_filename : Option String)
    (spotify_playlist_url : Option String) (p : RawProc) : Bool × List SEvent :=
  if !(strTruthy input_text || optTruthy upload_filename || optTruthy spotify_playlist_url) then
    (false, [SEvent.line no_input_error_text "red", SEvent.done])
  else
    (true, stream_output p)

/-- Predicate singling out the two terminal events. -/
def isTerminal : SEvent → Bool
  | SEvent.line _ _ => false
  | SEvent.done => true
  | SEvent.crash _ => true

lemma relay_out_not_terminal (ls : List String) :
    ∀ e ∈ relay_out ls, isTerminal e = false := by
  induction ls with
  | nil => simp [relay_out]
  | cons l rest ih =>
    intro e he
    rcases List.mem_cons.mp he with h | h
    · simp [h, isTerminal]
    · exact ih e h

lemma relay_err_not_terminal (ls : List String) :
    ∀ e ∈ relay_err ls, isTerminal e = false := by
  induction ls with
  | nil => simp [relay_err]
  | cons l rest ih =>
    intro e he
    rcases List.mem_cons.mp he with h | h
    · simp [h, isTerminal]
    · exact ih e h

/-- C2: once both streams have closed, an exit code of 0 or 1 ends the
stream with a single `DONE` event and any other exit code `n` ends it with a
single `CRASH n` event; in either case the terminal event is the last event
and the only terminal event of the stream. -/
theorem stream_terminal_classification (p : RawProc) :
    ((p.exit_code = 0 ∨ p.exit_code = 1) →
      ∃ es, stream_output p = es ++ [SEvent.done] ∧ ∀ e ∈ es, isTerminal e = false)
    ∧ (p.exit_code ≠ 0 → p.exit_code ≠ 1 →
      ∃ es, stream_output p = es ++ [SEvent.crash p.exit_code]
        ∧ ∀ e ∈ es, isTerminal e = false) := by
  constructor
  · intro hc
    refine ⟨relay_out (stdout_lines p) ++ relay_err (stderr_lines p), ?_, ?_⟩
    · simp [stream_output, terminal_event, hc]
    · intro e he
      rcases List.mem_append.mp he with h | h
      · exact relay_out_not_terminal _ e h
      · exact relay_err_not_terminal _ e h
  · intro h0 h1
    refine ⟨relay_out (stdout_lines p) ++ relay_err (stderr_lines p), ?_, ?_⟩
    · have : ¬(p.exit_code = 0 ∨ p.exit_code = 1) := by tauto
      simp [stream_output, terminal_event, this]
    · intro e he
      rcases List.mem_append.mp he with h | h
      · exact relay_out_not_terminal _ e h
      · exact relay_err_not_terminal _ e h

/-- Witness for C2 at a concrete process with exit code 2. -/
theorem stream_terminal_classification_witness :
    ∃ es, stream_output ⟨[(false, "a"), (true, "b")], 2⟩ = es ++ [SEvent.crash 2]
      ∧ ∀ e ∈ es, isTerminal e = false :=
  (stream_terminal_classification ⟨[(false, "a"), (true, "b")], 2⟩).2
    (by decide) (by decide)

lemma relay_out_eq_map (ls : List String) :
    relay_out ls = ls.map (fun l => SEvent.line l (line_color l)) := by
  induction ls with
  | nil => rfl
  | cons l rest ih => simp [relay_out, ih]

lemma relay_err_eq_map (ls : List String) :
    relay_err ls = ls.map (fun l => SEvent.line l "red") := by
  induction ls with
  | nil => rfl
  | cons l rest ih => simp [relay_err, ih]

/-- C6: for every subprocess run, the emitted events are exactly all the
stdout lines in order (each red iff its lowercasing contains one of the four
keywords, else default), then all the stderr lines in order (each forced
red), then the single terminal event; in particular no stderr line ever
precedes a stdout line. -/
theorem stream_event_order (p : RawProc) :
    stream_output p
      = (stdout_lines p).map (fun l => SEvent.line l
            (if color_keywords.any (fun k => strContainsSub (lowerStr l) k)
             then "red" else "default"))
        ++ (stderr_lines p).map (fun l => SEvent.line l "red")
        ++ [terminal_event p.exit_code] := by
  rw [stream_output, relay_out_eq_map, relay_err_eq_map]
  rfl

/-- C5: when no usable input is supplied (empty free text, no uploaded file
with a filename, no playlist URL), `run_command` spawns no subprocess and the
event stream is exactly one red error line followed by `DONE`. -/
theorem run_no_input_short_circuit (t : String) (f u : Option String) (p : RawProc)
    (ht : strTruthy t = false) (hf : optTruthy f = false) (hu : optTruthy u = false) :
    run_command_events t f u p
      = (false, [SEvent.line no_input_error_text "red", SEvent.done]) := by
  simp [run_command_events, ht, hf, hu]

/-- Witness for C5 at the fully empty request. -/
theorem run_no_input_short_circuit_witness :
    run_command_events "" none none ⟨[], 0⟩
      = (false, [SEvent.line no_input_error_text "red", SEvent.done]) :=
  run_no_input_short_circuit "" none none ⟨[], 0⟩ (by decide) (by decide) (by decide)

/-- One outbound metadata-API request made by `fetch_metadata`. -/
inductive ApiCall where
  | itunes (artist album : String)
  | deezer (artist : String)
deriving DecidableEq

/-- Translation of `fetch_metadata` (main.py lines 58-74).  The two HTTP
helpers `fetch_itunes_album` and `fetch_deezer_artist` are abstracted as
functions returning the art URL they would produce (errors and non-200
responses are already folded into `none` inside them).  The second component
records, in order, the endpoints actually queried. -/
def fetch_metadata (itunes_art : String → String → Option String)
    (deezer_art : String → Option String) (artist album : String) :
    Option String × List ApiCall :=
  if artist == "" then (none, [])
  else
    let first : Option String × List ApiCall :=
      if album != "" && album != "Unknown" then (itunes_art artist album, [ApiCall.itunes artist album])
      else (none, [])
    match first with
    | (some art, calls) => (some art, calls)
    | (none, calls) =>
      match deezer_art artist with
      | some art => (some art, calls ++ [ApiCall.deezer artist])
      | none => (none, calls ++ [ApiCall.deezer artist])

/-- C10: with an empty artist string, `fetch_metadata` returns no art URL and
queries neither the album-art endpoint nor the artist-image endpoint, for
every album value and whatever the endpoints would answer. -/
theorem fetch_metadata_empty_artist (itunes_art : String → String → Option String)
    (deezer_art : String → Option String) (album : String) :
    fetch_metadata itunes_art deezer_art "" album = (none, []) := rfl

/-- Python `\s` for the ASCII range: space, tab, newline, carriage return,
vertical tab, form feed. -/
def pyIsSpace (c : Char) : Bool :=
  c == ' ' || c == '\t' || c == '\n' || c == '\r' || c == '\x0b' || c == '\x0c'

/-- Python `str.strip()` on a character list. -/
def pyStripChars (l : List Char) : List Char :=
  ((l.dropWhile pyIsSpace).reverse.dropWhile pyIsSpace).reverse

/-- Python `str.strip()`. -/
def pyStrip (s : String) : String := String.mk (pyStripChars s.data)

/-- Tail of the year pattern after the optional opening bracket:
`\d{4}[\)\]]?\s*[-]?\s*`, applied greedily.  Returns the remainder on a
match. -/
def yearTail (l : List Char) : Option (List Char) :=
  match l with
  | a :: b :: c :: d :: rest =>
    if a.isDigit && b.isDigit && c.isDigit && d.isDigit then
      let rest := match rest with
        | x :: r => if x == ')' || x == ']' then r else x :: r
        | [] => []
      let rest := rest.dropWhile pyIsSpace
      let rest := match rest with
        | x :: r => if x == '-' then r else x :: r
        | [] => []
      some (rest.dropWhile pyIsSpace)
    else none
  | _ => none

/-- Cleanup step 1 (main.py line 136):
`re.sub(r'^[\(\[]?\d{4}[\)\]]?\s*[-]?\s*', '', album)`.  The `^` anchor
means at most one match, at the very start; if the optional opening bracket
is consumed but no four digits follow, the regex backtracks to the empty
bracket option and then fails on the bracket character itself, so the
string is unchanged. -/
def strip_year (s : String) : String :=
  match s.data with
  | [] => s
  | c :: cs =>
    if c == '(' || c == '[' then
      match yearTail cs with
      | some rest => String.mk rest
      | none => s
    else
      match yearTail (c :: cs) with
      | some rest => String.mk rest
      | none => s

/-- Case-insensitive variant of `charsStartWith` (ASCII folding). -/
def charsStartWithCI : List Char → List Char → Bool
  | [], _ => true
  | _ :: _, [] => false
  | p :: ps, c :: cs => p.toLower == c.toLower && charsStartWithCI ps cs

/-- The format-tag alternation of cleanup step 2, in source order. -/
def formatKeywords : List String := ["FLAC", "MP3", "320", "V0", "AAC"]

/-- Try the alternation keywords at the current position, first match wins;
returns the remainder after the matched keyword. -/
def tryKeywords : List String → List Char → Option (List Char)
  | [], _ => none
  | k :: ks, l => if charsStartWithCI k.data l then some (l.drop k.data.length) else tryKeywords ks l

/-- Consume one optional closing `)` or `]`. -/
def dropCloseBracket : List Char → List Char
  | [] => []
  | x :: r => if x == ')' || x == ']' then r else x :: r

/-- One-position match of cleanup step 2's pattern
`[\(\[]?(?:FLAC|MP3|320|V0|AAC)[\)\]]?` (case-insensitive): optional opening
bracket, one keyword, optional closing bracket.  When the opening bracket is
present but no keyword follows, backtracking to the empty bracket option
also fails, because no keyword starts with a bracket. -/
def matchFormatTag (l : List Char) : Option (List Char) :=
  match l with
  | [] => none
  | c :: cs =>
    if c == '(' || c == '[' then
      match tryKeywords formatKeywords cs with
      | some r => some (dropCloseBracket r)
      | none => none
    else
      match tryKeywords formatKeywords (c :: cs) with
      | some r => some (dropCloseBracket r)
      | none => none

/-- Fuel-indexed engine of `re.sub(pattern, '', s)` scanning: at each
position try the matcher; on a match drop the matched characters and resume
after them, otherwise keep the character and advance by one. -/
def subAllAux (m : List Char → Option (List Char)) : Nat → List Char → List Char
  | 0, l => l
  | _ + 1, [] => []
  | fuel + 1, c :: cs =>
    match m (c :: cs) with
    | some rest => subAllAux m fuel rest
    | none => c :: subAllAux m fuel cs

/-- `re.sub(pattern, '', s)`-style deletion of every non-overlapping match.
Fuel `l.length` suffices because both matchers used here consume at least
one character whenever they succeed. -/
def subAll (m : List Char → Option (List Char)) (l : List Char) : List Char :=
  subAllAux m l.length l

/-- Cleanup step 2 (main.py line 139): remove every format tag. -/
def strip_formats (s : String) : String := String.mk (subAll matchFormatTag s.data)

/-- Scan for the first closing `)`, `]` or `}`; fail at a newline or at
end-of-string, since `.` does not match a newline and `.*?` is lazy. -/
def scanToClose : List Char → Option (List Char)
  | [] => none
  | c :: cs =>
    if c == ')' || c == ']' || c == '\x7d' then some cs
    else if c == '\n' then none
    else scanToClose cs

/-- One-position match of cleanup step 3's pattern `[\(\[\{].*?[\)\]\}]`:
an opening bracket of any of the three kinds, lazily up to the first closing
bracket of any kind. -/
def matchBracketGroup : List Char → Option (List Char)
  | [] => none
  | c :: cs => if c == '(' || c == '[' || c == '\x7b' then scanToClose cs else none

/-- Cleanup step 3 (main.py line 142): remove every remaining bracketed or
braced group. -/
def strip_brackets (s : String) : String := String.mk (subAll matchBracketGroup s.data)

/-- Python `filename.replace("\\", "/")`. -/
def normalizeSeps (s : String) : String :=
  String.mk (s.data.map (fun c => if c == '\\' then '/' else c))

/-- Python `filename.split("/")` on a character list. -/
def splitSlash : List Char → List (List Char)
  | [] => [[]]
  | c :: cs =>
    if c == '/' then [] :: splitSlash cs
    else match splitSlash cs with
      | h :: t => (c :: h) :: t
      | [] => [[c]]

/-- Python `filename.split("/")`. -/
def pySplit (s : String) : List String := (splitSlash s.data).map String.mk

/-- Locate the first occurrence of `sep`, returning the pieces before and
after it. -/
def splitOnceAux (sep : List Char) : List Char → Option (List Char × List Char)
  | [] => none
  | c :: cs =>
    if charsStartWith sep (c :: cs) then some ([], (c :: cs).drop sep.length)
    else match splitOnceAux sep cs with
      | some (a, b) => some (c :: a, b)
      | none => none

/-- Python `s.split(sep, 1)` for the case the parser uses it in: the two
pieces around the first occurrence of `sep` (the whole string and `""` when
`sep` does not occur). -/
def splitOnce (sep s : String) : String × String :=
  match splitOnceAux sep.data s.data with
  | some (a, b) => (String.mk a, String.mk b)
  | none => (s, "")

/-- The generic-folder vocabulary of the parser (main.py line 112). -/
def generic_folders : List String :=
  ["music", "mp3", "flac", "uploads", "soulseek", "downloads", "complete"]

/-- The artist/album extraction of `parse_slsk_json` for one entry (main.py
lines 106-130), applied to the slash-separated path segments.  `none` models
the `continue` that drops an ambiguous two-segment entry; fewer than two
segments leave the `"Unknown"` defaults in place (the entry is then dropped
by the final filter). -/
def extract_artist_album (parts : List String) : Option (String × String) :=
  if parts.length ≥ 3 then
    let raw_artist := parts.getD (parts.length - 3) ""
    let raw_album := parts.getD (parts.length - 2) ""
    if generic_folders.contains (lowerStr raw_artist) && strContainsSub raw_album " - " then
      some (splitOnce " - " raw_album)
    else
      some (raw_artist, raw_album)
  else if parts.length == 2 then
    let raw_album := parts.getD 0 ""
    if strContainsSub raw_album " - " then some (splitOnce " - " raw_album)
    else none
  else
    some ("Unknown", "Unknown")

/-- Per-entry translation of `parse_slsk_json` (main.py lines 90-158): the
`Filename` field of one entry is normalized, split, heuristically parsed
into artist/album, the album is cleaned by the three regex steps, both sides
are stripped, and entries with an empty or `"Unknown"` artist or an empty
album are dropped (`none`). -/
def parse_entry (filename : String) : Option (String × String) :=
  if filename == "" then none
  else
    let parts := pySplit (normalizeSeps filename)
    match extract_artist_album parts with
    | none => none
    | some (artist0, album0) =>
      let album1 := strip_year album0
      let album2 := strip_formats album1
      let album3 := strip_brackets album2
      let artist := pyStrip artist0
      let album := pyStrip album3
      if artist == "" || album == "" || artist == "Unknown" then none
      else some (artist, album)

/-- C7: the entry with Filename `SomeArtist/SomeAlbum (2020) [FLAC]/track.mp3`
parses to artist `SomeArtist` and album exactly `SomeAlbum`, and the album is
produced by the in-order cleanup pipeline year-strip, format-tag-strip,
bracket-group-strip, whitespace-trim applied to the raw album segment. -/
theorem parse_entry_cleanup_example :
    parse_entry "SomeArtist/SomeAlbum (2020) [FLAC]/track.mp3"
        = some ("SomeArtist", "SomeAlbum")
    ∧ pyStrip (strip_brackets (strip_formats (strip_year "SomeAlbum (2020) [FLAC]")))
        = "SomeAlbum" := by
  constructor
  · rfl
  · rfl

/-- One deduplicated (artist, album) search candidate with its contributing
file count, as accumulated by `parse_slsk_json`. -/
structure Candidate where
  artist : String
  album : String
  files : Nat

/-- The comparison string `f"{res['artist']} {res['album']}"` built by the
ranking loop of `search_command` (main.py line 306). -/
def candidate_text (c : Candidate) : String := c.artist ++ " " ++ c.album

/-- The score computation of `search_command` (main.py lines 310-317).
`SequenceMatcher(None, a, b).ratio()` is Python-stdlib-external and is
abstracted as the parameter `ratio`; the float bonus `0.2` is modelled as
the exact rational `1/5`. -/
def score_of (ratio : String → String → ℚ) (input_text : String) (c : Candidate) : ℚ :=
  let base := ratio (lowerStr input_text) (lowerStr (candidate_text c))
  if strContainsSub (lowerStr (candidate_text c)) (lowerStr input_text) then base + 1/5 else base

/-- The comparison used to sort candidates: `x` may precede `y` exactly when
the Python key tuple `(score, files)` of `y` is lexicographically at most
that of `x` (descending sort, score primary, file count tiebreak; main.py
line 320). -/
def rank_le (ratio : String → String → ℚ) (q : String) (x y : Candidate) : Bool :=
  decide (score_of ratio q y < score_of ratio q x)
  || (decide (score_of ratio q y = score_of ratio q x) && decide (y.files ≤ x.files))

/-- The sort-then-slice of `search_command` (main.py lines 320-323): sort
descending by (score, file count), keep the first 10; this is the
`top_results` list over which the art-resolution loop then runs. -/
def rank_candidates (ratio : String → String → ℚ) (input_text : String)
    (cands : List Candidate) : List Candidate :=
  (cands.mergeSort (rank_le ratio input_text)).take 10

lemma rank_le_eq_true {ratio : String → String → ℚ} {q : String} {x y : Candidate} :
    rank_le ratio q x y = true ↔
      (score_of ratio q y < score_of ratio q x
       ∨ (score_of ratio q y = score_of ratio q x ∧ y.files ≤ x.files)) := by
  simp [rank_le, Bool.or_eq_true, Bool.and_eq_true, decide_eq_true_eq]

lemma rank_le_trans (ratio : String → String → ℚ) (q : String) :
    ∀ a b c : Candidate, rank_le ratio q a b → rank_le ratio q b c → rank_le ratio q a c := by
  intro a b c h1 h2
  rw [rank_le_eq_true] at h1 h2 ⊢
  rcases h1 with h1 | ⟨h1e, h1f⟩ <;> rcases h2 with h2 | ⟨h2e, h2f⟩
  · exact Or.inl (h2.trans h1)
  · exact Or.inl (lt_of_le_of_lt (le_of_eq h2e) h1)
  · exact Or.inl (lt_of_lt_of_le h2 (le_of_eq h1e))
  · exact Or.inr ⟨h2e.trans h1e, le_trans h2f h1f⟩

lemma rank_le_total (ratio : String → String → ℚ) (q : String) :
    ∀ a b : Candidate, rank_le ratio q a b || rank_le ratio q b a := by
  intro a b
  simp only [Bool.or_eq_true, rank_le_eq_true]
  rcases lt_trichotomy (score_of ratio q b) (score_of ratio q a) with h | h | h
  · exact Or.inl (Or.inl h)
  · rcases Nat.le_total b.files a.files with hf | hf
    · exact Or.inl (Or.inr ⟨h, hf⟩)
    · exact Or.inr (Or.inr ⟨h.symm, hf⟩)
  · exact Or.inr (Or.inl h)

/-- C8: every candidate's score is the (abstracted) similarity ratio of the
lowercased query against the lowercased `artist album` string, plus exactly
1/5 precisely when the lowercased query occurs as a substring of that
string; and the candidates that proceed to art resolution are the first 10
of a reordering of the input that is sorted descending by (score, file
count) with score primary and file count breaking ties. -/
theorem ranking_spec (ratio : String → String → ℚ) (input_text : String)
    (cands : List Candidate) :
    (∀ c : Candidate,
      score_of ratio input_text c
        = ratio (lowerStr input_text) (lowerStr (c.artist ++ " " ++ c.album))
          + (if strContainsSub (lowerStr (c.artist ++ " " ++ c.album)) (lowerStr input_text)
             then (1/5 : ℚ) else 0))
    ∧ ∃ ranked : List Candidate,
        ranked.Perm cands
        ∧ List.Pairwise (fun x y =>
            score_of ratio input_text y < score_of ratio input_text x
            ∨ (score_of ratio input_text y = score_of ratio input_text x
               ∧ y.files ≤ x.files)) ranked
        ∧ rank_candidates ratio input_text cands = ranked.take 10 := by
  constructor
  · intro c
    unfold score_of candidate_text
    by_cases h : strContainsSub (lowerStr (c.artist ++ " " ++ c.album)) (lowerStr input_text) <;>
      simp [h]
  · refine ⟨cands.mergeSort (rank_le ratio input_text), List.mergeSort_perm _ _, ?_, rfl⟩
    have hp := List.sorted_mergeSort (rank_le_trans ratio input_text)
      (rank_le_total ratio input_text) cands
    exact hp.imp (fun h => rank_le_eq_true.mp h)

end SlskGui
